import Mathlib

/-!
Verification of the `janus-app` plugin bridge (Rust) against its
natural-language specification, via a shallow embedding in Lean 4.

The embedding models:
* the JSON document model exchanged with the host (`Json`), standing for
  both serde_json values and jansson `json_t` documents — the serialization
  bridge in `src/plugin.rs` converts between the two through a textual dump,
  which is the identity at the level of JSON values;
* the two handle-registry variants, `src/handle_registry.rs` (manual host
  reference counting) and `src/plugin/handle_registry.rs` (no reference
  counting, the one `plugin.rs` links via `mod handle_registry`);
* the lifecycle container (`App` in `src/plugin.rs`), its entry-point
  implementations and the queued callback dispatcher backend.

Machine pointers are modelled as natural-number addresses; the host memory
visible to the plugin (the `gateway_handle -> handle_id` field read by
`fetch_id`, and the `ref_.count` field) is a pair of functions from
addresses. Rust `Result<T, Error>` becomes `Except String T` (the crate's
`Error` is a plain string wrapper, `src/error.rs`). Panics are modelled
explicitly where a claim is about them.
-/

namespace JanusApp

/-- JSON values: the common document model of serde_json and jansson. -/
inductive Json where
  | null
  | bool (b : Bool)
  | num (n : Int)
  | str (s : String)
  | arr (elems : List Json)
  | obj (fields : List (String × Json))

/-- Field lookup in a JSON object (first occurrence, as jansson/serde do). -/
def Json.lookupField : Json → String → Option Json
  | .obj fields, key => fields.lookup key
  | _, _ => none

/-- The `Jsep` enum of `src/lib.rs` (lines 355-361): a serde
internally-tagged enum, tag field `type`, variants renamed to lowercase. -/
inductive Jsep where
  | offer (sdp : String)
  | answer (sdp : String)
deriving Repr, DecidableEq

/-- Serialization of `Jsep` per its serde derive
(`#[serde(rename_all = "lowercase", tag = "type")]`): the wire form is
an object with a `type` discriminator and the `sdp` field. -/
def Jsep.toWire : Jsep → Json
  | .offer sdp => .obj [("type", .str "offer"), ("sdp", .str sdp)]
  | .answer sdp => .obj [("type", .str "answer"), ("sdp", .str sdp)]

/-- Deserialization of `Jsep` per the same serde derive: read the `type`
tag, then the `sdp` string field. Any mismatch is a deserialization error
(`deserialize` in `src/plugin.rs` maps serde failures to
`Failed to deserialize JSON: ...`). -/
def Jsep.fromWire (j : Json) : Except String Jsep :=
  match j.lookupField "type" with
  | some (.str "offer") =>
    match j.lookupField "sdp" with
    | some (.str sdp) => .ok (.offer sdp)
    | _ => .error "Failed to deserialize JSON"
  | some (.str "answer") =>
    match j.lookupField "sdp" with
    | some (.str sdp) => .ok (.answer sdp)
    | _ => .error "Failed to deserialize JSON"
  | _ => .error "Failed to deserialize JSON"

/-- The representative ping-style incoming payload of the example plugin
(`example/src/handle.rs`, `IncomingMessagePayload::Ping { data }`), a serde
internally-tagged enum with tag field `method`, variants lowercased. -/
inductive PingPayload where
  | ping (data : String)
deriving Repr, DecidableEq

/-- Serde internally-tagged wire form of the ping payload:
`{"method": "ping", "data": <string>}`. -/
def PingPayload.toWire : PingPayload → Json
  | .ping data => .obj [("method", .str "ping"), ("data", .str data)]

/-- Deserialization of the ping payload per its serde derive. -/
def PingPayload.fromWire (j : Json) : Except String PingPayload :=
  match j.lookupField "method" with
  | some (.str "ping") =>
    match j.lookupField "data" with
    | some (.str data) => .ok (.ping data)
    | _ => .error "Failed to deserialize JSON"
  | _ => .error "Failed to deserialize JSON"

/-!
Association-list model of `std::collections::HashMap<u64, V>` as used by
both registry variants: `lookupEntry` is `HashMap::get`, `insertEntry` is
`HashMap::insert` (replace or append), `eraseEntry` is `HashMap::remove`
(drops the unique binding; the registries keep keys distinct).
-/

/-- `HashMap::get` on an association list keyed by `u64`. -/
def lookupEntry {V : Type} (id : Nat) : List (Nat × V) → Option V
  | [] => none
  | e :: rest => if e.1 = id then some e.2 else lookupEntry id rest

/-- `HashMap::insert`: replace the binding for `id` or append a new one. -/
def insertEntry {V : Type} (id : Nat) (v : V) : List (Nat × V) → List (Nat × V)
  | [] => [(id, v)]
  | e :: rest => if e.1 = id then (id, v) :: rest else e :: insertEntry id v rest

/-- `HashMap::remove`: drop the (first) binding for `id`. -/
def eraseEntry {V : Type} (id : Nat) : List (Nat × V) → List (Nat × V)
  | [] => []
  | e :: rest => if e.1 = id then rest else e :: eraseEntry id rest

/-- Keys of an association list. -/
def keysOf {V : Type} (l : List (Nat × V)) : List Nat :=
  l.map Prod.fst

/-!
Host memory visible to the plugin. A raw `*mut janus_plugin_session`
pointer is an address `ptr : Nat`. `fetch_id` (both registry files) reads
`(*ptr).gateway_handle->handle_id`, a host-owned field the plugin never
writes: modelled as the fixed function `gatewayId`. `ref_.count` is the
host reference count the old registry mutates: modelled as `refCount`.
-/

/-- Host memory: the `handle_id` reachable from each session pointer and
the host reference count of each session pointer. -/
structure HostMem where
  gatewayId : Nat → Nat
  refCount : Nat → Int

/-- `fetch_id` of both registry variants: dereference the pointer chain to
the host-assigned session identity. -/
def fetchId (mem : HostMem) (ptr : Nat) : Nat :=
  mem.gatewayId ptr

/-- `raw_handle.ref_.count += 1` (acquire, `src/handle_registry.rs:46`). -/
def incRef (mem : HostMem) (ptr : Nat) : HostMem :=
  { mem with refCount := fun p => if p = ptr then mem.refCount p + 1 else mem.refCount p }

/-- `raw_handle.ref_.count -= 1` (release, `src/handle_registry.rs:56,62`). -/
def decRef (mem : HostMem) (ptr : Nat) : HostMem :=
  { mem with refCount := fun p => if p = ptr then mem.refCount p - 1 else mem.refCount p }

/-!
Registry variant A: `src/handle_registry.rs`. Entries are
`(raw session pointer, handle state)` keyed by session id; `add` acquires
the host reference count, `remove` and `clear` release it. The handle
state is `H::new(id)`, abstracted as a creation function `Hnew`.
-/

/-- State of `HandleRegistry` in `src/handle_registry.rs`: the `handles`
hash map from session id to `(&mut janus_plugin_session, H)`. -/
structure RegistryA (H : Type) where
  handles : List (Nat × Nat × H)

/-- `HandleRegistry::get_by_id` (variant A). -/
def RegistryA.getById {H : Type} (reg : RegistryA H) (id : Nat) : Option (Nat × H) :=
  lookupEntry id reg.handles

/-- `HandleRegistry::get_by_raw_handle` (variant A): derive the id, then
delegate to `get_by_id`. -/
def RegistryA.getByRawHandle {H : Type} (reg : RegistryA H) (mem : HostMem) (ptr : Nat) :
    Option (Nat × H) :=
  reg.getById (fetchId mem ptr)

/-- Result of a variant-A registry operation: the `Result` value, the
host memory and registry afterwards, and — for the release-pairing claim —
how many acquire (`count += 1`) and release (`count -= 1`) calls the
operation performed. -/
structure ResultA (H : Type) where
  result : Except String Unit
  mem : HostMem
  reg : RegistryA H
  acquired : Nat
  released : Nat

/-- `HandleRegistry::add` (variant A, lines 35-51): fail if the derived id
is already present; otherwise increment the host reference count, insert
`(raw_handle, H::new(id))`, and re-read the entry (the re-read cannot fail
after the insert, but the source checks it). -/
def RegistryA.add {H : Type} (Hnew : Nat → H) (mem : HostMem) (reg : RegistryA H)
    (ptr : Nat) : ResultA H :=
  if (reg.getByRawHandle mem ptr).isSome then
    ⟨.error "Handle already registered", mem, reg, 0, 0⟩
  else
    let id := fetchId mem ptr
    let mem' := incRef mem ptr
    let reg' : RegistryA H := ⟨insertEntry id (ptr, Hnew id) reg.handles⟩
    match reg'.getById id with
    | some _ => ⟨.ok (), mem', reg', 1, 0⟩
    | none =>
      ⟨.error ("Failed to register handle with id " ++ toString id), mem', reg', 1, 0⟩

/-- `HandleRegistry::remove` (variant A, lines 53-58): remove the binding
for the derived id (a no-op on the map when absent) and decrement the host
reference count unconditionally, returning `Ok` always. -/
def RegistryA.remove {H : Type} (mem : HostMem) (reg : RegistryA H) (ptr : Nat) :
    ResultA H :=
  ⟨.ok (), decRef mem ptr, ⟨eraseEntry (fetchId mem ptr) reg.handles⟩, 0, 1⟩

/-- `HandleRegistry::clear` (variant A, lines 60-66): decrement the host
reference count of every stored session pointer, then empty the map. -/
def RegistryA.clear {H : Type} (mem : HostMem) (reg : RegistryA H) : ResultA H :=
  ⟨.ok (), reg.handles.foldl (fun m e => decRef m e.2.1) mem, ⟨[]⟩, 0, reg.handles.length⟩

/-!
Registry variant B: `src/plugin/handle_registry.rs`, the module `plugin.rs`
links. Entries pair an `AtomicPtr` to the session (a plain address here;
loads/stores are `Relaxed` single-location accesses) with the plugin
handle. No host reference count is touched and there is no `clear`.
-/

/-- State of `HandleRegistry` in `src/plugin/handle_registry.rs`: session
id to `Entry { raw_handle, plugin_handle }`. -/
structure RegistryB (H : Type) where
  handles : List (Nat × Nat × H)

/-- `HandleRegistry::get_by_id` (variant B). -/
def RegistryB.getById {H : Type} (reg : RegistryB H) (id : Nat) : Option (Nat × H) :=
  lookupEntry id reg.handles

/-- `HandleRegistry::get_by_raw_handle` (variant B). -/
def RegistryB.getByRawHandle {H : Type} (reg : RegistryB H) (mem : HostMem) (ptr : Nat) :
    Option (Nat × H) :=
  reg.getById (fetchId mem ptr)

/-- `HandleRegistry::add` (variant B, lines 62-79): fail if the derived id
is present; otherwise insert the entry and re-read it. The host reference
count is not touched. -/
def RegistryB.add {H : Type} (mem : HostMem) (reg : RegistryB H) (ptr : Nat) (h : H) :
    Except String (Nat × H) × RegistryB H :=
  if (reg.getByRawHandle mem ptr).isSome then
    (.error "Handle already registered", reg)
  else
    let id := fetchId mem ptr
    let reg' : RegistryB H := ⟨insertEntry id (ptr, h) reg.handles⟩
    match reg'.getById id with
    | some e => (.ok e, reg')
    | none => (.error ("Failed to register handle with id " ++ toString id), reg')

/-- `HandleRegistry::remove` (variant B, lines 81-84): drop the binding for
the derived id (no-op when absent) and return `Ok`. -/
def RegistryB.remove {H : Type} (mem : HostMem) (reg : RegistryB H) (ptr : Nat) :
    Except String Unit × RegistryB H :=
  (.ok (), ⟨eraseEntry (fetchId mem ptr) reg.handles⟩)

/-!
Instrumented runs of registry variant A, for the acquire/release pairing
claim: a run threads host memory and registry through a sequence of
`add` / `remove` / `clear` calls and counts every `count += 1` and
`count -= 1` the operations perform.
-/

/-- A registry operation invoked by the lifecycle container. -/
inductive RegOp where
  | add (ptr : Nat)
  | remove (ptr : Nat)
  | clear
deriving Repr, DecidableEq

/-- State of an instrumented variant-A run. -/
structure RunA (H : Type) where
  mem : HostMem
  reg : RegistryA H
  acquires : Nat
  releases : Nat

/-- Apply one registry operation, accumulating the acquire/release
counts it performed. -/
def applyA {H : Type} (Hnew : Nat → H) (s : RunA H) (op : RegOp) : RunA H :=
  let r := match op with
    | .add ptr => RegistryA.add Hnew s.mem s.reg ptr
    | .remove ptr => RegistryA.remove s.mem s.reg ptr
    | .clear => RegistryA.clear s.mem s.reg
  ⟨r.mem, r.reg, s.acquires + r.acquired, s.releases + r.released⟩

/-- Run a sequence of registry operations. -/
def runA {H : Type} (Hnew : Nat → H) (s : RunA H) : List RegOp → RunA H
  | [] => s
  | op :: ops => runA Hnew (applyA Hnew s op) ops

/-- One operation is well-formed in a state: `remove` is invoked only for
a session pointer that is currently registered under its own entry (the
way `destroy_session` is invoked once per live session). `add` and
`clear` are always well-formed. -/
def wfOpA {H : Type} (s : RunA H) : RegOp → Bool
  | .remove ptr =>
    match s.reg.getByRawHandle s.mem ptr with
    | some e => e.1 == ptr
    | none => false
  | _ => true

/-- Well-formedness of a whole operation sequence from a starting state. -/
def wfOpsA {H : Type} (Hnew : Nat → H) (s : RunA H) : List RegOp → Bool
  | [] => true
  | op :: ops => wfOpA s op && wfOpsA Hnew (applyA Hnew s op) ops

/-- Invariant tying an instrumented variant-A run to its initial host
memory (`g0` identities, `rc0` reference counts): identities never change,
registry keys are unique and match the identity of their stored pointer,
each pointer's reference count exceeds its initial value by one exactly
while registered, and the acquire counter exceeds the release counter by
the current registry size. -/
structure InvA {H : Type} (g0 : Nat → Nat) (rc0 : Nat → Int) (s : RunA H) : Prop where
  gatewayEq : s.mem.gatewayId = g0
  keyNodup : (keysOf s.reg.handles).Nodup
  keyMatch : ∀ e ∈ s.reg.handles, g0 e.2.1 = e.1
  refEq : ∀ p, s.mem.refCount p =
    rc0 p + (if ∃ e ∈ s.reg.handles, e.2.1 = p then 1 else 0)
  countEq : s.acquires = s.releases + s.reg.handles.length

/-!
Message envelope types of `src/lib.rs` and the host result object.
-/

/-- `IncomingMessage` (`src/lib.rs`, lines 364-398). -/
structure IncomingMessage (Q : Type) where
  transaction : String
  payload : Q
  jsep : Option Jsep

/-- `OutgoingMessage` (`src/lib.rs`, lines 401-435). -/
structure OutgoingMessage (P : Type) where
  transaction : String
  payload : P
  jsep : Option Jsep

/-- `IncomingMessageResponse` (`src/lib.rs`, lines 438-445); the source
spells the synchronous variant `Syncronous`. -/
inductive IncomingMessageResponse (P : Type) where
  | syncronous (payload : P)
  | ack

/-- `janus_plugin_result_type`. -/
inductive JanusPluginResultType where
  | ok
  | okWait
  | error
deriving Repr, DecidableEq

/-- `janus_plugin_result`: tag, text and optional content document
(a null `json_t` pointer is `none`). -/
structure JanusPluginResult where
  type_ : JanusPluginResultType
  text : String
  content : Option Json

/-- `MediaProtocol` (`src/lib.rs`). -/
inductive MediaProtocol where
  | rtp
  | rtcp
deriving Repr, DecidableEq

/-- `MediaKind` (`src/lib.rs`). -/
inductive MediaKind where
  | video
  | audio
deriving Repr, DecidableEq

/-- `MediaEvent` (`src/lib.rs`, lines 329-350); `i8` buffers become
integer lists. -/
inductive MediaEvent where
  | setup
  | media (protocol : MediaProtocol) (kind : MediaKind) (buffer : List Int)
  | data (buffer : List Int)
  | slowLink (kind : MediaKind) (uplink : Int)
  | hangup

/-!
The lifecycle container (`App` in `src/plugin.rs`) and the entry-point
implementations. The container is `Option (App H)`: `none` is the
uninitialized state of the `APP` cell, `some` the initialized one. The
plugin instance, the dispatcher sender and the external collaborators
(plugin factory, message handler, serde instances) are abstracted as
function parameters; the registry is variant B, the module `plugin.rs`
links. An FFI outcome separates normal returns from panics that unwind
across the `extern "C"` boundary.
-/

/-- The lifecycle container state owned by the `APP` cell: plugin instance
and dispatcher sender are external to the claims, the handle registry is
the authoritative session map. -/
structure App (H : Type) where
  handleRegistry : RegistryB H

/-- Outcome of an `extern "C"` entry point: a returned value, or a panic
unwinding across the FFI boundary. -/
inductive FfiOutcome (α : Type) where
  | ok (value : α)
  | panicked (msg : String)

/-- Whether a string contains an interior NUL byte, the failure condition
of `CString::new`. -/
def containsNul (s : String) : Bool :=
  s.data.any fun c => c.toNat == 0

/-- `CString::new`: fails exactly on interior NUL bytes. -/
def cstringNew (s : String) : Except String String :=
  if containsNul s then .error "nul byte found in provided data" else .ok s

/-- `init_impl` (`src/plugin.rs`, lines 138-157): fail if already
initialized; otherwise run the config-path cast and the plugin factory
(combined in the `pluginInit` collaborator outcome, which carries the
formatted error message) and install the new container with an empty
registry and a fresh dispatcher. -/
def initImpl {H : Type} (pluginInit : Except String Unit) (st : Option (App H)) :
    Except String Unit × Option (App H) :=
  match st with
  | some app => (.error "Plugin already initialized", some app)
  | none =>
    match pluginInit with
    | .error err => (.error err, none)
    | .ok _ => (.ok (), some { handleRegistry := ⟨[]⟩ })

/-- `destroy` (`src/plugin.rs`, lines 159-161): unconditionally clear the
container cell. -/
def destroy {H : Type} (_st : Option (App H)) : Option (App H) :=
  none

/-- `create_session_impl` (`src/plugin.rs`, lines 213-230). -/
def createSessionImpl {H : Type} (buildHandle : Nat → H) (mem : HostMem)
    (st : Option (App H)) (ptr : Nat) : Except String Unit × Option (App H) :=
  match st with
  | none => (.error "Plugin not initialized", none)
  | some app =>
    let handleId := fetchId mem ptr
    let pluginHandle := buildHandle handleId
    match app.handleRegistry.getByRawHandle mem ptr with
    | some _ => (.error "Handle already registered", some app)
    | none =>
      match app.handleRegistry.add mem ptr pluginHandle with
      | (.ok _, reg') => (.ok (), some { handleRegistry := reg' })
      | (.error err, reg') =>
        (.error ("Failed to register handle: " ++ err), some { handleRegistry := reg' })

/-- `handle_message_impl` (`src/plugin.rs`, lines 259-306): registry
lookup first, then transaction cast, payload deserialization, optional
JSEP deserialization, and the plugin handler; `Ack` becomes an `OK_WAIT`
result, `Syncronous` serializes the response payload. The lookup uses a
shared borrow, so the registry is returned unchanged in every branch. -/
def handleMessageImpl {H Q P : Type}
    (deserializeIn : Json → Except String Q)
    (handler : H → IncomingMessage Q → Except String (IncomingMessageResponse P))
    (serializeOut : P → Except String Json)
    (mem : HostMem) (st : Option (App H)) (ptr : Nat)
    (transaction : Except String String) (payload : Json) (jsep : Option Json) :
    Except String JanusPluginResult × Option (App H) :=
  match st with
  | none => (.error "Plugin not initialized", none)
  | some app =>
    match app.handleRegistry.getByRawHandle mem ptr with
    | none => (.error "Handle not found", some app)
    | some (_, pluginHandle) =>
      match transaction with
      | .error err => (.error ("Failed to cast transaction: " ++ err), some app)
      | .ok txn =>
        match deserializeIn payload with
        | .error err => (.error err, some app)
        | .ok p =>
          let jsepRes : Except String (Option Jsep) :=
            match jsep with
            | none => .ok none
            | some j => (Jsep.fromWire j).map some
          match jsepRes with
          | .error err => (.error err, some app)
          | .ok jo =>
            match handler pluginHandle ⟨txn, p, jo⟩ with
            | .error err => (.error ("Error handlung message: " ++ err), some app)
            | .ok .ack => (.ok ⟨.okWait, "", none⟩, some app)
            | .ok (.syncronous rp) =>
              match serializeOut rp with
              | .ok content => (.ok ⟨.ok, "", some content⟩, some app)
              | .error err =>
                (.error ("Failed to serialize response payload: " ++ err), some app)

/-- `dispatch_media_event` (`src/plugin.rs`, lines 732-746), shared by
`setup_media`, `incoming_rtp`, `incoming_rtcp`, `incoming_data`,
`slow_link` and `hangup_media`: look up the handle and invoke its media
handler (which returns unit). Shared borrow: registry unchanged. -/
def dispatchMediaEvent {H : Type} (mem : HostMem) (st : Option (App H)) (ptr : Nat)
    (_ev : MediaEvent) : Except String Unit × Option (App H) :=
  match st with
  | none => (.error "Plugin not initialized", none)
  | some app =>
    match app.handleRegistry.getByRawHandle mem ptr with
    | none => (.error "Handle not found", some app)
    | some _ => (.ok (), some app)

/-- `destroy_session_impl` (`src/plugin.rs`, lines 410-415). -/
def destroySessionImpl {H : Type} (mem : HostMem) (st : Option (App H)) (ptr : Nat) :
    Except String Unit × Option (App H) :=
  match st with
  | none => (.error "Plugin not initialized", none)
  | some app =>
    match app.handleRegistry.remove mem ptr with
    | (res, reg') => (res, some { handleRegistry := reg' })

/-- `query_session_impl` (`src/plugin.rs`, lines 427-441). -/
def querySessionImpl {H : Type} (serializeH : H → Except String Json) (mem : HostMem)
    (st : Option (App H)) (ptr : Nat) : Except String Json × Option (App H) :=
  match st with
  | none => (.error "Plugin not initialized", none)
  | some app =>
    match app.handleRegistry.getByRawHandle mem ptr with
    | none => (.error "Handle not found", some app)
    | some (_, pluginHandle) => (serializeH pluginHandle, some app)

/-!
The `extern "C"` wrappers of `src/plugin.rs`: each converts the `Result`
of its `*_impl` to the host convention (status code, null pointer, or a
`janus_plugin_result` with an error tag) — but every error arm first logs
through `janus_log`, whose `CString::new(message).expect(...)` panics when
the error text holds an interior NUL byte, and the identity getters
(`get_name` and friends) call `CString::new(...).expect(...)` directly.
None of this is guarded by `catch_unwind`, so those panics unwind across
the FFI boundary. Wrappers therefore return an `FfiOutcome`.
-/

/-- `janus_log` (`src/plugin.rs`, lines 719-723):
`CString::new(message).expect("Failed to cast error message")`, then hand
the C string to `janus_vprintf` — panics when the message holds an
interior NUL byte. -/
def janusLog (message : String) : FfiOutcome Unit :=
  match cstringNew message with
  | .ok _ => .ok ()
  | .error _ => .panicked "Failed to cast error message"

/-- `init` entry point (`src/plugin.rs`, lines 125-136): 0 on success; on
error, `janus_log` the text (panics on interior NUL) then return 1. -/
def initFfi {H : Type} (pluginInit : Except String Unit) (st : Option (App H)) :
    FfiOutcome (Int × Option (App H)) :=
  match initImpl pluginInit st with
  | (.ok _, st') => .ok (0, st')
  | (.error e, st') =>
    match janusLog e with
    | .panicked m => .panicked m
    | .ok _ => .ok (1, st')

/-- `create_session` entry point (lines 201-211): writes 0 into the
host's error out-parameter on success; on error, `janus_log` then 1. -/
def createSessionFfi {H : Type} (buildHandle : Nat → H) (mem : HostMem)
    (st : Option (App H)) (ptr : Nat) : FfiOutcome (Int × Option (App H)) :=
  match createSessionImpl buildHandle mem st ptr with
  | (.ok _, st') => .ok (0, st')
  | (.error e, st') =>
    match janusLog e with
    | .panicked m => .panicked m
    | .ok _ => .ok (1, st')

/-- `handle_message` entry point (lines 232-257): impl errors are first
logged through `janus_log` (line 241, panics on interior NUL), then become
a `JANUS_PLUGIN_ERROR` result whose text is the error message, with the
`unwrap_or_else` empty-string fallback for a failing `CString::new` — a
fallback that is unreachable, because `janus_log` has already panicked on
exactly that input. -/
def handleMessageFfi {H Q P : Type}
    (deserializeIn : Json → Except String Q)
    (handler : H → IncomingMessage Q → Except String (IncomingMessageResponse P))
    (serializeOut : P → Except String Json)
    (mem : HostMem) (st : Option (App H)) (ptr : Nat)
    (transaction : Except String String) (payload : Json) (jsep : Option Json) :
    FfiOutcome (JanusPluginResult × Option (App H)) :=
  match handleMessageImpl deserializeIn handler serializeOut mem st ptr transaction
      payload jsep with
  | (.ok r, st') => .ok (r, st')
  | (.error e, st') =>
    match janusLog e with
    | .panicked m => .panicked m
    | .ok _ =>
      let text :=
        match cstringNew e with
        | .ok t => t
        | .error _ => ""
      .ok (⟨.error, text, none⟩, st')

/-- `destroy_session` entry point (lines 395-408): 0 on success; on
error, `janus_log` then 1. -/
def destroySessionFfi {H : Type} (mem : HostMem) (st : Option (App H)) (ptr : Nat) :
    FfiOutcome (Int × Option (App H)) :=
  match destroySessionImpl mem st ptr with
  | (.ok _, st') => .ok (0, st')
  | (.error e, st') =>
    match janusLog e with
    | .panicked m => .panicked m
    | .ok _ => .ok (1, st')

/-- `query_session` entry point (lines 417-425): the serialized handle on
success; on error, `janus_log` then a null pointer. -/
def querySessionFfi {H : Type} (serializeH : H → Except String Json) (mem : HostMem)
    (st : Option (App H)) (ptr : Nat) :
    FfiOutcome (Option Json × Option (App H)) :=
  match querySessionImpl serializeH mem st ptr with
  | (.ok j, st') => .ok (some j, st')
  | (.error e, st') =>
    match janusLog e with
    | .panicked m => .panicked m
    | .ok _ => .ok (none, st')

/-- Media entry points (`setup_media` etc., lines 308-393): void returns;
errors go to `janus_log` (their texts here are NUL-free constants, so the
log cannot panic on this path). -/
def mediaEventFfi {H : Type} (mem : HostMem) (st : Option (App H)) (ptr : Nat)
    (ev : MediaEvent) : FfiOutcome (Option (App H)) :=
  match dispatchMediaEvent mem st ptr ev with
  | (.ok _, st') => .ok st'
  | (.error e, st') =>
    match janusLog e with
    | .panicked m => .panicked m
    | .ok _ => .ok st'

/-- `get_name` entry point (lines 183-187):
`CString::new(P::name()).expect("Failed to cast name")`. -/
def getName (name : String) : FfiOutcome String :=
  match cstringNew name with
  | .ok s => .ok s
  | .error _ => .panicked "Failed to cast name"

/-- `get_description` entry point (lines 177-181). -/
def getDescription (description : String) : FfiOutcome String :=
  match cstringNew description with
  | .ok s => .ok s
  | .error _ => .panicked "Failed to cast description"

/-- `get_author` entry point (lines 189-193). -/
def getAuthor (author : String) : FfiOutcome String :=
  match cstringNew author with
  | .ok s => .ok s
  | .error _ => .panicked "Failed to cast author"

/-- `get_package` entry point (lines 195-199). -/
def getPackage (package : String) : FfiOutcome String :=
  match cstringNew package with
  | .ok s => .ok s
  | .error _ => .panicked "Failed to cast package"

/-- `get_version_string` entry point (lines 171-175): formats the numeric
version. -/
def getVersionString (version : Int) : FfiOutcome String :=
  match cstringNew (toString version) with
  | .ok s => .ok s
  | .error _ => .panicked "Failed cast version string"

/-!
Queued callback dispatch (`src/plugin.rs`, lines 445-715). Producers
enqueue a `CallbackDispatch` — session identity plus callback variant —
onto the mpsc channel; the single consumer thread resolves the identity
against the registry at delivery time and invokes the native callback
captured at init. Native invocations are modelled as an emitted trace of
`NativeCall` values.
-/

/-- The `Callback` enum (lines 445-462). -/
inductive Callback (E P : Type) where
  | relayMediaPacket (protocol : MediaProtocol) (kind : MediaKind) (buffer : List Int)
  | relayDataPacket (buffer : List Int)
  | closePeerConnection
  | endHandle
  | notifyEvent (event : E)
  | pushEvent (message : OutgoingMessage P)

/-- The `CallbackDispatch` command enqueued on the channel (lines
464-476): session identity and the callback variant, nothing else — in
particular no native session pointer. -/
structure CallbackDispatch (E P : Type) where
  handleId : Nat
  callback : Callback E P

/-- The cloneable `CallbackDispatcher` handed to each plugin handle
(lines 478-540); the mpsc sender is modelled by returning the enqueued
command. -/
structure CallbackDispatcher where
  handleId : Nat

/-- `CallbackDispatcher::dispatch` (lines 535-540): enqueue the command
tagged with this dispatcher's session identity. -/
def CallbackDispatcher.dispatch {E P : Type} (d : CallbackDispatcher)
    (cb : Callback E P) : CallbackDispatch E P :=
  ⟨d.handleId, cb⟩

/-- `Vec::with_capacity(n)`: an empty vector (capacity is not length). -/
def vecWithCapacity (_n : Nat) : List Int :=
  []

/-- `<[i8]>::copy_from_slice`: panics unless source and destination have
equal lengths, otherwise the destination becomes a copy of the source. -/
def copyFromSlice (dst src : List Int) : FfiOutcome (List Int) :=
  if dst.length = src.length then .ok src
  else .panicked "source slice length does not match destination slice length"

/-- `CallbackDispatcher::relay_media_packet` (lines 489-504): copy the
borrowed buffer into an owned vector, then enqueue. -/
def CallbackDispatcher.relayMediaPacket {E P : Type} (d : CallbackDispatcher)
    (protocol : MediaProtocol) (kind : MediaKind) (buffer : List Int) :
    FfiOutcome (CallbackDispatch E P) :=
  match copyFromSlice (vecWithCapacity buffer.length) buffer with
  | .panicked m => .panicked m
  | .ok owned => .ok (d.dispatch (.relayMediaPacket protocol kind owned))

/-- `CallbackDispatcher::relay_data_packet` (lines 506-514). -/
def CallbackDispatcher.relayDataPacket {E P : Type} (d : CallbackDispatcher)
    (buffer : List Int) : FfiOutcome (CallbackDispatch E P) :=
  match copyFromSlice (vecWithCapacity buffer.length) buffer with
  | .panicked m => .panicked m
  | .ok owned => .ok (d.dispatch (.relayDataPacket owned))

/-- `CallbackDispatcher::push_event` (lines 528-533). -/
def CallbackDispatcher.pushEvent {E P : Type} (d : CallbackDispatcher)
    (message : OutgoingMessage P) : CallbackDispatch E P :=
  d.dispatch (.pushEvent message)

/-- A native callback invocation performed by the consumer thread through
the `janus_callbacks` table. -/
inductive NativeCall where
  | relayRtp (ptr : Nat) (isVideo : Int) (buffer : List Int)
  | relayRtcp (ptr : Nat) (isVideo : Int) (buffer : List Int)
  | relayData (ptr : Nat) (buffer : List Int)
  | closePc (ptr : Nat)
  | endSession (ptr : Nat)
  | notifyEvent (ptr : Nat) (event : Json)
  | pushEvent (ptr : Nat) (transaction : String) (payload : Json) (jsep : Option Json)

/-- The native session pointer a native call targets. -/
def NativeCall.target : NativeCall → Nat
  | .relayRtp p _ _ => p
  | .relayRtcp p _ _ => p
  | .relayData p _ => p
  | .closePc p => p
  | .endSession p => p
  | .notifyEvent p _ => p
  | .pushEvent p _ _ _ => p

/-- `CallbackDispatcherBackend::raw_handle` (lines 698-710): re-enter
`P::with_app` and take `app_ref.borrow_mut()` on the thread's `APP` cell
to look the native session pointer up by the handle's id at the moment of
use. `cellBorrowed` records whether that `RefCell` is already borrowed at
the call site. At `raw_handle`'s only call sites — the sender arms of
`dispatch`, which execute inside `match &*app_ref.borrow()` (lines
571-596) on the same thread — the cell is borrowed, so the `borrow_mut`
panics with `BorrowMutError` before the lookup body can run. -/
def rawHandle {H : Type} (hid : H → Nat) (st : Option (App H)) (h : H)
    (cellBorrowed : Bool) : FfiOutcome (Except String Nat) :=
  if cellBorrowed then .panicked "already borrowed: BorrowMutError"
  else
    match st with
    | none => .ok (.error "Plugin not initialized")
    | some app =>
      match app.handleRegistry.getById (hid h) with
      | none => .ok (.error ("Handle " ++ toString (hid h) ++ " not found"))
      | some (p, _) => .ok (.ok p)

/-- `CallbackDispatcherBackend::dispatch` (lines 570-597) together with
the per-variant senders (lines 599-696): resolve the session identity in
the registry at delivery time, re-fetch the native pointer through
`raw_handle`, and invoke the captured native callback. The whole body
runs inside `match &*app_ref.borrow()`, so each sender's `raw_handle`
call re-borrows the already-borrowed cell and panics; the native-call
emitting branches below are therefore dead code in the program, kept to
mirror the source. `pushRc` is the return code of the host's
`push_event`; a non-zero code surfaces as an error after the call.
Returns the outcome (result or panic) and the emitted native calls. -/
def backendDispatch {H E P : Type} (hid : H → Nat)
    (serializeEv : E → Except String Json) (serializeOut : P → Except String Json)
    (pushRc : Int) (st : Option (App H)) (cd : CallbackDispatch E P) :
    FfiOutcome (Except String Unit) × List NativeCall :=
  match st with
  | none => (.ok (.error "Plugin not initialized"), [])
  | some app =>
    match app.handleRegistry.getById cd.handleId with
    | none => (.ok (.error ("Handle " ++ toString cd.handleId ++ " not found")), [])
    | some (_, h) =>
      match cd.callback with
      | .relayMediaPacket protocol kind buffer =>
        match rawHandle hid st h true with
        | .panicked m => (.panicked m, [])
        | .ok (.error e) => (.ok (.error e), [])
        | .ok (.ok p) =>
          let isVideo : Int := match kind with | .video => 1 | .audio => 0
          match protocol with
          | .rtp => (.ok (.ok ()), [.relayRtp p isVideo buffer])
          | .rtcp => (.ok (.ok ()), [.relayRtcp p isVideo buffer])
      | .relayDataPacket buffer =>
        match rawHandle hid st h true with
        | .panicked m => (.panicked m, [])
        | .ok (.error e) => (.ok (.error e), [])
        | .ok (.ok p) => (.ok (.ok ()), [.relayData p buffer])
      | .closePeerConnection =>
        match rawHandle hid st h true with
        | .panicked m => (.panicked m, [])
        | .ok (.error e) => (.ok (.error e), [])
        | .ok (.ok p) => (.ok (.ok ()), [.closePc p])
      | .endHandle =>
        match rawHandle hid st h true with
        | .panicked m => (.panicked m, [])
        | .ok (.error e) => (.ok (.error e), [])
        | .ok (.ok p) => (.ok (.ok ()), [.endSession p])
      | .notifyEvent ev =>
        match rawHandle hid st h true with
        | .panicked m => (.panicked m, [])
        | .ok (.error e) => (.ok (.error e), [])
        | .ok (.ok p) =>
          match serializeEv ev with
          | .error err => (.ok (.error ("Failed to serialize: " ++ err)), [])
          | .ok j => (.ok (.ok ()), [.notifyEvent p j])
      | .pushEvent msg =>
        match rawHandle hid st h true with
        | .panicked m => (.panicked m, [])
        | .ok (.error e) => (.ok (.error e), [])
        | .ok (.ok p) =>
          match cstringNew msg.transaction with
          | .error err => (.ok (.error ("Failed to cast transaction: " ++ err)), [])
          | .ok txn =>
            match serializeOut msg.payload with
            | .error err => (.ok (.error ("Failed to serialize payload: " ++ err)), [])
            | .ok pj =>
              let call := NativeCall.pushEvent p txn pj (msg.jsep.map Jsep.toWire)
              if pushRc = 0 then (.ok (.ok ()), [call])
              else (.ok (.error "Failed to push event"), [call])

/-- The lifecycle cell the consumer thread observes. `APP` is declared
`thread_local!` by the `janus_plugin!` macro (`src/plugin.rs`, lines
52-55), so the worker thread spawned in `CallbackDispatcherBackend::start`
(line 559) gets its own cell initialized to `None`, and nothing ever
assigns it on that thread: every `with_app` there sees the uninitialized
state. -/
def consumerApp (H : Type) : Option (App H) :=
  none

/-- The consumer thread's loop (`CallbackDispatcherBackend::start`, lines
550-568): drain the queue in arrival order; a dispatch error is passed to
`janus_log` and the loop continues; a panic (from `raw_handle`'s
re-borrow, or from `janus_log` on NUL-bearing error text) unwinds the
worker thread, so the rest of the queue is never drained. -/
def backendRun {H E P : Type} (hid : H → Nat)
    (serializeEv : E → Except String Json) (serializeOut : P → Except String Json)
    (pushRc : Int) (st : Option (App H)) :
    List (CallbackDispatch E P) → List NativeCall
  | [] => []
  | cd :: rest =>
    match backendDispatch hid serializeEv serializeOut pushRc st cd with
    | (.panicked _, calls) => calls
    | (.ok (.error e), calls) =>
      match janusLog e with
      | .panicked _ => calls
      | .ok _ => calls ++ backendRun hid serializeEv serializeOut pushRc st rest
    | (.ok (.ok _), calls) =>
      calls ++ backendRun hid serializeEv serializeOut pushRc st rest

/-- Concrete serializer used by witnesses: a number payload. -/
def serNat (n : Nat) : Except String Json :=
  .ok (.num n)

/-- Concrete serializer used by witnesses: a null document. -/
def serNull (_x : Nat) : Except String Json :=
  .ok .null

/-! Association-list lemmas used to reason about the registries. -/

theorem lookupEntry_insert_self {V : Type} (id : Nat) (v : V) (l : List (Nat × V)) :
    lookupEntry id (insertEntry id v l) = some v := by
  induction l with
  | nil => simp [insertEntry, lookupEntry]
  | cons e rest ih =>
    by_cases h : e.1 = id
    · simp [insertEntry, lookupEntry, h]
    · simp [insertEntry, lookupEntry, h, ih]

theorem lookupEntry_eq_none_of_not_mem {V : Type} {id : Nat} {l : List (Nat × V)}
    (h : id ∉ keysOf l) : lookupEntry id l = none := by
  induction l with
  | nil => rfl
  | cons e rest ih =>
    simp only [keysOf, List.map_cons, List.mem_cons, not_or] at h
    have hne : ¬e.1 = id := fun he => h.1 he.symm
    simp [lookupEntry, hne, ih h.2]

theorem lookupEntry_isSome_of_mem {V : Type} {id : Nat} {v : V} {l : List (Nat × V)}
    (h : (id, v) ∈ l) : (lookupEntry id l).isSome = true := by
  induction l with
  | nil => simp at h
  | cons e rest ih =>
    rcases List.mem_cons.mp h with he | hrest
    · simp [lookupEntry, ← he]
    · by_cases hk : e.1 = id
      · simp [lookupEntry, hk]
      · simp [lookupEntry, hk, ih hrest]

theorem not_mem_keysOf_of_lookup_none {V : Type} {id : Nat} {l : List (Nat × V)}
    (h : lookupEntry id l = none) : id ∉ keysOf l := by
  intro hmem
  rcases List.mem_map.mp hmem with ⟨e, he, hkey⟩
  have hm : (id, e.2) ∈ l := by
    have he2 : e = (id, e.2) := by
      cases e
      simp only at hkey
      simp [hkey]
    exact he2 ▸ he
  have := lookupEntry_isSome_of_mem hm
  simp [h] at this

theorem lookupEntry_mem {V : Type} {id : Nat} {v : V} {l : List (Nat × V)}
    (h : lookupEntry id l = some v) : (id, v) ∈ l := by
  induction l with
  | nil => simp [lookupEntry] at h
  | cons e rest ih =>
    by_cases hk : e.1 = id
    · simp only [lookupEntry, hk, if_pos] at h
      cases e
      simp only at hk
      simp only [Option.some.injEq] at h
      simp [hk, h]
    · simp only [lookupEntry, hk, if_neg, not_false_iff] at h
      exact List.mem_cons_of_mem _ (ih h)

theorem insertEntry_of_not_mem {V : Type} {id : Nat} (v : V) {l : List (Nat × V)}
    (h : id ∉ keysOf l) : insertEntry id v l = l ++ [(id, v)] := by
  induction l with
  | nil => rfl
  | cons e rest ih =>
    simp only [keysOf, List.map_cons, List.mem_cons, not_or] at h
    have hne : ¬e.1 = id := fun he => h.1 he.symm
    simp [insertEntry, hne, ih h.2]

theorem eraseEntry_sublist {V : Type} (id : Nat) (l : List (Nat × V)) :
    (eraseEntry id l).Sublist l := by
  induction l with
  | nil => simp [eraseEntry]
  | cons e rest ih =>
    by_cases hk : e.1 = id
    · simp only [eraseEntry, hk, if_pos]
      exact List.sublist_cons_self e rest
    · simp only [eraseEntry, hk, if_neg, not_false_iff]
      exact List.Sublist.cons₂ e ih

theorem eraseEntry_of_lookup_none {V : Type} {id : Nat} {l : List (Nat × V)}
    (h : lookupEntry id l = none) : eraseEntry id l = l := by
  induction l with
  | nil => rfl
  | cons e rest ih =>
    by_cases hk : e.1 = id
    · simp [lookupEntry, hk] at h
    · simp only [lookupEntry, hk, if_neg, not_false_iff] at h
      simp [eraseEntry, hk, ih h]

theorem nodup_keysOf_eraseEntry {V : Type} {id : Nat} {l : List (Nat × V)}
    (h : (keysOf l).Nodup) : (keysOf (eraseEntry id l)).Nodup :=
  ((eraseEntry_sublist id l).map Prod.fst).nodup h

theorem lookupEntry_erase_self {V : Type} {id : Nat} {l : List (Nat × V)}
    (h : (keysOf l).Nodup) : lookupEntry id (eraseEntry id l) = none := by
  induction l with
  | nil => rfl
  | cons e rest ih =>
    simp only [keysOf, List.map_cons, List.nodup_cons] at h
    by_cases hk : e.1 = id
    · simp only [eraseEntry, hk, if_pos]
      exact lookupEntry_eq_none_of_not_mem (show id ∉ keysOf rest from hk ▸ h.1)
    · simp [eraseEntry, lookupEntry, hk, ih h.2]

theorem length_eraseEntry {V : Type} {id : Nat} {v : V} {l : List (Nat × V)}
    (h : lookupEntry id l = some v) : (eraseEntry id l).length + 1 = l.length := by
  induction l with
  | nil => simp [lookupEntry] at h
  | cons e rest ih =>
    by_cases hk : e.1 = id
    · simp [eraseEntry, hk]
    · simp only [lookupEntry, hk, if_neg, not_false_iff] at h
      simp [eraseEntry, hk, ih h]

theorem mem_eraseEntry_of_key_ne {V : Type} {id : Nat} {e : Nat × V} {l : List (Nat × V)}
    (hmem : e ∈ l) (hne : e.1 ≠ id) : e ∈ eraseEntry id l := by
  induction l with
  | nil => simp at hmem
  | cons f rest ih =>
    by_cases hk : f.1 = id
    · rcases List.mem_cons.mp hmem with hf | hrest
      · exact absurd (hf ▸ hk) hne
      · simpa [eraseEntry, hk] using hrest
    · rcases List.mem_cons.mp hmem with hf | hrest
      · simp [eraseEntry, hk, hf]
      · simp [eraseEntry, hk, ih hrest]

theorem lookupEntry_of_mem_nodup {V : Type} {id : Nat} {v : V} {l : List (Nat × V)}
    (hnd : (keysOf l).Nodup) (hmem : (id, v) ∈ l) : lookupEntry id l = some v := by
  induction l with
  | nil => simp at hmem
  | cons e rest ih =>
    simp only [keysOf, List.map_cons, List.nodup_cons] at hnd
    rcases List.mem_cons.mp hmem with he | hrest
    · simp [lookupEntry, ← he]
    · by_cases hk : e.1 = id
      · exact absurd (hk ▸ List.mem_map_of_mem Prod.fst hrest) hnd.1
      · simp [lookupEntry, hk, ih hnd.2 hrest]

/-! Lemmas about the instrumented variant-A runs. -/

/-- Pointers stored in a registry entry list. -/
def ptrsOf {H : Type} (l : List (Nat × Nat × H)) : List Nat :=
  l.map fun e => e.2.1

theorem foldl_decRef_gatewayId {H : Type} (l : List (Nat × Nat × H)) (mem : HostMem) :
    (l.foldl (fun m e => decRef m e.2.1) mem).gatewayId = mem.gatewayId := by
  induction l generalizing mem with
  | nil => rfl
  | cons e rest ih =>
    simp only [List.foldl_cons]
    rw [ih]
    rfl

theorem foldl_decRef_refCount {H : Type} (l : List (Nat × Nat × H)) (mem : HostMem)
    (p : Nat) :
    (l.foldl (fun m e => decRef m e.2.1) mem).refCount p =
      mem.refCount p - ((ptrsOf l).count p : Int) := by
  induction l generalizing mem with
  | nil => simp [ptrsOf]
  | cons e rest ih =>
    simp only [List.foldl_cons, ih, ptrsOf, List.map_cons, List.count_cons]
    by_cases hp : e.2.1 = p
    · simp only [hp, decRef]
      simp only [if_pos rfl, beq_self_eq_true, if_true]
      push_cast
      ring
    · have h1 : ¬p = e.2.1 := fun h => hp h.symm
      simp only [decRef]
      rw [if_neg h1]
      have h2 : (p == e.2.1) = false := by simp [h1]
      simp [h1, h2, hp]

theorem RegistryA.add_of_present {H : Type} (Hnew : Nat → H) (mem : HostMem)
    (reg : RegistryA H) (ptr : Nat) (hp : (reg.getByRawHandle mem ptr).isSome = true) :
    RegistryA.add Hnew mem reg ptr = ⟨.error "Handle already registered", mem, reg, 0, 0⟩ := by
  simp [RegistryA.add, hp]

theorem RegistryA.add_of_absent {H : Type} (Hnew : Nat → H) (mem : HostMem)
    (reg : RegistryA H) (ptr : Nat) (hp : (reg.getByRawHandle mem ptr).isSome = false) :
    RegistryA.add Hnew mem reg ptr =
      ⟨.ok (), incRef mem ptr,
        ⟨insertEntry (fetchId mem ptr) (ptr, Hnew (fetchId mem ptr)) reg.handles⟩, 1, 0⟩ := by
  simp [RegistryA.add, hp, RegistryA.getById, lookupEntry_insert_self]

theorem runA_append {H : Type} (Hnew : Nat → H) (s : RunA H) (ops ops' : List RegOp) :
    runA Hnew s (ops ++ ops') = runA Hnew (runA Hnew s ops) ops' := by
  induction ops generalizing s with
  | nil => rfl
  | cons op rest ih => simp [runA, ih]

/-- The run invariant is preserved by every well-formed operation. -/
theorem invA_applyA {H : Type} {g0 : Nat → Nat} {rc0 : Nat → Int} (Hnew : Nat → H)
    {s : RunA H} (inv : InvA g0 rc0 s) {op : RegOp} (hwf : wfOpA s op = true) :
    InvA g0 rc0 (applyA Hnew s op) := by
  cases op with
  | add ptr =>
    cases hb : (s.reg.getByRawHandle s.mem ptr).isSome with
    | true =>
      have hadd := RegistryA.add_of_present Hnew s.mem s.reg ptr hb
      refine ⟨?_, ?_, ?_, ?_, ?_⟩
      · simp only [applyA, hadd]
        exact inv.gatewayEq
      · simp only [applyA, hadd]
        exact inv.keyNodup
      · simp only [applyA, hadd]
        exact inv.keyMatch
      · simp only [applyA, hadd]
        exact inv.refEq
      · simp only [applyA, hadd]
        have := inv.countEq
        omega
    | false =>
      have hadd := RegistryA.add_of_absent Hnew s.mem s.reg ptr hb
      have hid : fetchId s.mem ptr = g0 ptr := by simp [fetchId, inv.gatewayEq]
      have hlookup : lookupEntry (g0 ptr) s.reg.handles = none := by
        cases hc : lookupEntry (g0 ptr) s.reg.handles with
        | none => rfl
        | some v =>
          rw [RegistryA.getByRawHandle, RegistryA.getById, hid, hc] at hb
          simp at hb
      have hnotmem : g0 ptr ∉ keysOf s.reg.handles :=
        not_mem_keysOf_of_lookup_none hlookup
      -- No existing entry stores this pointer.
      have hnoptr : ∀ e ∈ s.reg.handles, e.2.1 ≠ ptr := by
        intro e he hep
        have hkey : e.1 = g0 ptr := by rw [← inv.keyMatch e he, hep]
        have hmem : (g0 ptr, e.2) ∈ s.reg.handles := by
          have he2 : e = (g0 ptr, e.2) := by
            cases e
            simp only at hkey
            simp [hkey]
          exact he2 ▸ he
        have := lookupEntry_isSome_of_mem hmem
        simp [hlookup] at this
      have hins : insertEntry (g0 ptr) (ptr, Hnew (g0 ptr)) s.reg.handles =
          s.reg.handles ++ [(g0 ptr, ptr, Hnew (g0 ptr))] :=
        insertEntry_of_not_mem _ hnotmem
      refine ⟨?_, ?_, ?_, ?_, ?_⟩
      · simp only [applyA, hadd, incRef]
        exact inv.gatewayEq
      · simp only [applyA, hadd, hid, hins, keysOf, List.map_append, List.map_cons,
          List.map_nil]
        exact List.Nodup.append inv.keyNodup (List.nodup_singleton _)
          (by simpa [keysOf, List.disjoint_singleton] using hnotmem)
      · intro e he
        simp only [applyA, hadd, hid, hins, List.mem_append, List.mem_singleton] at he
        rcases he with he | he
        · exact inv.keyMatch e he
        · simp [he]
      · intro p
        simp only [applyA, hadd, hid, hins, incRef]
        by_cases hp : p = ptr
        · subst hp
          have hold : ¬∃ e ∈ s.reg.handles, e.2.1 = p := by
            rintro ⟨e, he, hep⟩
            exact hnoptr e he hep
          have hnew : ∃ e ∈ s.reg.handles ++ [(g0 p, p, Hnew (g0 p))], e.2.1 = p :=
            ⟨(g0 p, p, Hnew (g0 p)), by simp, rfl⟩
          rw [if_pos rfl, inv.refEq p, if_neg hold, if_pos hnew]
          ring
        · have hiff : (∃ e ∈ s.reg.handles ++ [(g0 ptr, ptr, Hnew (g0 ptr))], e.2.1 = p) ↔
              (∃ e ∈ s.reg.handles, e.2.1 = p) := by
            constructor
            · rintro ⟨e, he, hep⟩
              rcases List.mem_append.mp he with he | he
              · exact ⟨e, he, hep⟩
              · rcases List.mem_singleton.mp he with rfl
                exact absurd hep (fun hc => hp hc.symm)
            · rintro ⟨e, he, hep⟩
              exact ⟨e, List.mem_append_left _ he, hep⟩
          rw [if_neg hp, inv.refEq p]
          by_cases hex : ∃ e ∈ s.reg.handles, e.2.1 = p
          · rw [if_pos hex, if_pos (hiff.mpr hex)]
          · rw [if_neg hex, if_neg (fun hc => hex (hiff.mp hc))]
      · simp only [applyA, hadd, hid, hins, List.length_append, List.length_cons,
          List.length_nil]
        have := inv.countEq
        omega
  | remove ptr =>
    -- Well-formedness: the registry holds exactly this pointer under its id.
    have hsome : ∃ h : H, s.reg.getByRawHandle s.mem ptr = some (ptr, h) := by
      cases hi : s.reg.getByRawHandle s.mem ptr with
      | none => simp [wfOpA, hi] at hwf
      | some e =>
        obtain ⟨e1, e2⟩ := e
        simp only [wfOpA, hi, beq_iff_eq] at hwf
        exact ⟨e2, by rw [hwf]⟩
    rcases hsome with ⟨h, hfound⟩
    have hid : fetchId s.mem ptr = g0 ptr := by simp [fetchId, inv.gatewayEq]
    have hlookup : lookupEntry (g0 ptr) s.reg.handles = some (ptr, h) := by
      rw [RegistryA.getByRawHandle, RegistryA.getById, hid] at hfound
      exact hfound
    have hmem0 : (g0 ptr, ptr, h) ∈ s.reg.handles := lookupEntry_mem hlookup
    refine ⟨?_, ?_, ?_, ?_, ?_⟩
    · simp only [applyA, RegistryA.remove, decRef]
      exact inv.gatewayEq
    · simp only [applyA, RegistryA.remove, hid]
      exact nodup_keysOf_eraseEntry inv.keyNodup
    · intro e he
      simp only [applyA, RegistryA.remove, hid] at he
      exact inv.keyMatch e ((eraseEntry_sublist (g0 ptr) s.reg.handles).mem he)
    · intro p
      simp only [applyA, RegistryA.remove, hid, decRef]
      by_cases hp : p = ptr
      · subst hp
        have hold : ∃ e ∈ s.reg.handles, e.2.1 = p := ⟨(g0 p, p, h), hmem0, rfl⟩
        have hnew : ¬∃ e ∈ eraseEntry (g0 p) s.reg.handles, e.2.1 = p := by
          rintro ⟨e, he, hep⟩
          have hmem1 : e ∈ s.reg.handles := (eraseEntry_sublist _ _).mem he
          have hkey : e.1 = g0 p := by rw [← inv.keyMatch e hmem1, hep]
          have hmem2 : (g0 p, e.2) ∈ eraseEntry (g0 p) s.reg.handles := by
            have he2 : e = (g0 p, e.2) := by
              cases e
              simp only at hkey
              simp [hkey]
            exact he2 ▸ he
          have := lookupEntry_isSome_of_mem hmem2
          simp [lookupEntry_erase_self inv.keyNodup] at this
        rw [if_pos rfl, inv.refEq p, if_pos hold, if_neg hnew]
        ring
      · have hiff : (∃ e ∈ eraseEntry (g0 ptr) s.reg.handles, e.2.1 = p) ↔
            (∃ e ∈ s.reg.handles, e.2.1 = p) := by
          constructor
          · rintro ⟨e, he, hep⟩
            exact ⟨e, (eraseEntry_sublist _ _).mem he, hep⟩
          · rintro ⟨e, he, hep⟩
            refine ⟨e, mem_eraseEntry_of_key_ne he ?_, hep⟩
            intro hkey
            have he2 : e = (g0 ptr, e.2) := by
              cases e
              simp only at hkey
              simp [hkey]
            have hlk := lookupEntry_of_mem_nodup inv.keyNodup (he2 ▸ he)
            rw [hlookup] at hlk
            have he3 : (ptr, h) = e.2 := by injection hlk
            exact hp (by rw [← hep, ← he3])
        rw [if_neg hp, inv.refEq p]
        by_cases hex : ∃ e ∈ s.reg.handles, e.2.1 = p
        · rw [if_pos hex, if_pos (hiff.mpr hex)]
        · rw [if_neg hex, if_neg (fun hc => hex (hiff.mp hc))]
    · simp only [applyA, RegistryA.remove, hid]
      have hlen := length_eraseEntry hlookup
      have := inv.countEq
      omega
  | clear =>
    have hptrs : keysOf s.reg.handles = (ptrsOf s.reg.handles).map g0 := by
      simp only [keysOf, ptrsOf, List.map_map]
      exact List.map_congr_left fun e he => (inv.keyMatch e he).symm
    have hptrsNodup : (ptrsOf s.reg.handles).Nodup := by
      have hnd := inv.keyNodup
      rw [hptrs] at hnd
      exact hnd.of_map
    refine ⟨?_, ?_, ?_, ?_, ?_⟩
    · simp only [applyA, RegistryA.clear]
      rw [foldl_decRef_gatewayId]
      exact inv.gatewayEq
    · simp [applyA, RegistryA.clear, keysOf]
    · intro e he
      simp [applyA, RegistryA.clear] at he
    · intro p
      simp only [applyA, RegistryA.clear]
      rw [foldl_decRef_refCount]
      by_cases hex : ∃ e ∈ s.reg.handles, e.2.1 = p
      · have hp : p ∈ ptrsOf s.reg.handles := by
          rcases hex with ⟨e, he, hep⟩
          exact List.mem_map.mpr ⟨e, he, hep⟩
        have hcount : (ptrsOf s.reg.handles).count p = 1 :=
          List.count_eq_one_of_mem hptrsNodup hp
        rw [inv.refEq p, hcount, if_pos hex]
        simp
      · have hp : p ∉ ptrsOf s.reg.handles := by
          intro hc
          rcases List.mem_map.mp hc with ⟨e, he, hep⟩
          exact hex ⟨e, he, hep⟩
        have hcount : (ptrsOf s.reg.handles).count p = 0 :=
          List.count_eq_zero_of_not_mem hp
        rw [inv.refEq p, hcount, if_neg hex]
        simp
    · simp only [applyA, RegistryA.clear, List.length_nil]
      have := inv.countEq
      omega

/-- The run invariant holds along every well-formed run. -/
theorem invA_runA {H : Type} {g0 : Nat → Nat} {rc0 : Nat → Int} (Hnew : Nat → H)
    {s : RunA H} (inv : InvA g0 rc0 s) {ops : List RegOp}
    (hwf : wfOpsA Hnew s ops = true) : InvA g0 rc0 (runA Hnew s ops) := by
  induction ops generalizing s with
  | nil => exact inv
  | cons op rest ih =>
    simp only [wfOpsA, Bool.and_eq_true] at hwf
    exact ih (invA_applyA Hnew inv hwf.1) hwf.2

end JanusApp

namespace JanusApp

/-- Claim C7: deserializing the serialization is the identity for the
representative ping-style payload and for both negotiation-payload
variants, and the negotiation payload crosses the wire as
`{type: "offer"|"answer", sdp: <string>}`. -/
theorem c7_serialization_round_trip :
    (∀ data : String,
      PingPayload.fromWire (PingPayload.toWire (.ping data)) = .ok (.ping data)) ∧
    (∀ sdp : String,
      Jsep.fromWire (Jsep.toWire (.offer sdp)) = .ok (.offer sdp)) ∧
    (∀ sdp : String,
      Jsep.fromWire (Jsep.toWire (.answer sdp)) = .ok (.answer sdp)) ∧
    (∀ sdp : String,
      Jsep.toWire (.offer sdp) = .obj [("type", .str "offer"), ("sdp", .str sdp)]) ∧
    (∀ sdp : String,
      Jsep.toWire (.answer sdp) = .obj [("type", .str "answer"), ("sdp", .str sdp)]) := by
  refine ⟨fun data => ?_, fun sdp => ?_, fun sdp => ?_, fun sdp => rfl, fun sdp => rfl⟩ <;>
    simp [PingPayload.toWire, PingPayload.fromWire, Jsep.toWire, Jsep.fromWire,
      Json.lookupField, List.lookup]

/-- Claim C1 (amended): in the reference-counting registry
(`src/handle_registry.rs`), along any operation sequence in which every
`remove` targets a currently-registered session pointer (one teardown per
live session, the host's contract), followed by the bulk `clear` of plugin
destruction: every acquired host reference is released exactly once — the
total number of release (`count -= 1`) calls equals the total number of
successful register (`count += 1`) calls, and every pointer's host
reference count is restored to its initial value. The claim as literally
stated — over every operation sequence — is false, because an unmatched
`remove` still decrements (see the counterexample). -/
theorem c1_release_pairing_amended {H : Type} (Hnew : Nat → H) (g0 : Nat → Nat)
    (rc0 : Nat → Int) (ops : List RegOp)
    (hwf : wfOpsA Hnew ⟨⟨g0, rc0⟩, ⟨[]⟩, 0, 0⟩ ops = true) :
    (runA Hnew ⟨⟨g0, rc0⟩, ⟨[]⟩, 0, 0⟩ (ops ++ [RegOp.clear])).releases =
      (runA Hnew ⟨⟨g0, rc0⟩, ⟨[]⟩, 0, 0⟩ (ops ++ [RegOp.clear])).acquires ∧
    ∀ p, (runA Hnew ⟨⟨g0, rc0⟩, ⟨[]⟩, 0, 0⟩ (ops ++ [RegOp.clear])).mem.refCount p
      = rc0 p := by
  have inv0 : InvA g0 rc0 (⟨⟨g0, rc0⟩, ⟨[]⟩, 0, 0⟩ : RunA H) := by
    refine ⟨rfl, by simp [keysOf], ?_, ?_, by simp⟩
    · intro e he
      simp at he
    · intro p
      simp
  have inv1 := invA_runA Hnew inv0 hwf
  have hstep : runA Hnew ⟨⟨g0, rc0⟩, ⟨[]⟩, 0, 0⟩ (ops ++ [RegOp.clear]) =
      applyA Hnew (runA Hnew ⟨⟨g0, rc0⟩, ⟨[]⟩, 0, 0⟩ ops) RegOp.clear := by
    rw [runA_append]
    rfl
  have hwfclear : wfOpA (runA Hnew ⟨⟨g0, rc0⟩, ⟨[]⟩, 0, 0⟩ ops) RegOp.clear = true := rfl
  have inv2 := invA_applyA Hnew inv1 hwfclear
  have hreg : (applyA Hnew (runA Hnew ⟨⟨g0, rc0⟩, ⟨[]⟩, 0, 0⟩ ops) RegOp.clear).reg.handles
      = [] := rfl
  constructor
  · rw [hstep]
    have hc := inv2.countEq
    rw [hreg] at hc
    simpa using hc.symm
  · intro p
    rw [hstep]
    have hr := inv2.refEq p
    rw [hreg] at hr
    simpa using hr

/-- Witness for C1: two sessions registered, one torn down individually,
the other released by the final clear. -/
theorem c1_release_pairing_amended_witness :
    wfOpsA (fun i : Nat => i) ⟨⟨fun p => p, fun _ => 0⟩, ⟨[]⟩, 0, 0⟩
        [RegOp.add 0, RegOp.remove 0, RegOp.add 1] = true ∧
    ((runA (fun i : Nat => i) ⟨⟨fun p => p, fun _ => 0⟩, ⟨[]⟩, 0, 0⟩
          ([RegOp.add 0, RegOp.remove 0, RegOp.add 1] ++ [RegOp.clear])).releases =
        (runA (fun i : Nat => i) ⟨⟨fun p => p, fun _ => 0⟩, ⟨[]⟩, 0, 0⟩
          ([RegOp.add 0, RegOp.remove 0, RegOp.add 1] ++ [RegOp.clear])).acquires ∧
      ∀ p, (runA (fun i : Nat => i) ⟨⟨fun p => p, fun _ => 0⟩, ⟨[]⟩, 0, 0⟩
          ([RegOp.add 0, RegOp.remove 0, RegOp.add 1] ++ [RegOp.clear])).mem.refCount p
        = (fun _ => (0 : Int)) p) :=
  ⟨by decide,
    c1_release_pairing_amended (fun i => i) (fun p => p) (fun _ => 0)
      [RegOp.add 0, RegOp.remove 0, RegOp.add 1] (by decide)⟩

/-- Counterexample to C1 as stated: register pointer 0 once, then remove
it twice. The second `remove` (for a now-absent session) still performs a
release: two release calls follow one successful register call, the
reference is decremented twice, and the final host reference count sits
one below its initial value. -/
theorem c1_counterexample :
    (runA (fun i : Nat => i) ⟨⟨fun p => p, fun _ => 0⟩, ⟨[]⟩, 0, 0⟩
        [RegOp.add 0, RegOp.remove 0, RegOp.remove 0]).acquires = 1 ∧
    (runA (fun i : Nat => i) ⟨⟨fun p => p, fun _ => 0⟩, ⟨[]⟩, 0, 0⟩
        [RegOp.add 0, RegOp.remove 0, RegOp.remove 0]).releases = 2 ∧
    (runA (fun i : Nat => i) ⟨⟨fun p => p, fun _ => 0⟩, ⟨[]⟩, 0, 0⟩
        [RegOp.add 0, RegOp.remove 0, RegOp.remove 0]).mem.refCount 0 = -1 :=
  ⟨by decide, by decide, by decide⟩

/-- Claim C9 (code bug): `relay_media_packet` / `relay_data_packet` copy
the borrowed buffer with `Vec::with_capacity(len)` followed by
`copy_from_slice`, but `with_capacity` yields a vector of length 0, and
`copy_from_slice` panics unless the lengths match — so any non-empty
buffer panics instead of being enqueued, while the empty buffer works.
The `// Copying for thread safety` comment shows the intent the claim
describes. -/
theorem c9_relay_copy_panics_on_nonempty :
    CallbackDispatcher.relayMediaPacket (E := Nat) (P := Nat) ⟨5⟩ .rtp .video [1] =
      .panicked "source slice length does not match destination slice length" ∧
    CallbackDispatcher.relayDataPacket (E := Nat) (P := Nat) ⟨5⟩ [1] =
      .panicked "source slice length does not match destination slice length" ∧
    CallbackDispatcher.relayMediaPacket (E := Nat) (P := Nat) ⟨5⟩ .rtp .video [] =
      .ok ⟨5, .relayMediaPacket .rtp .video []⟩ ∧
    CallbackDispatcher.relayDataPacket (E := Nat) (P := Nat) ⟨5⟩ [] =
      .ok ⟨5, .relayDataPacket []⟩ :=
  ⟨rfl, rfl, rfl, rfl⟩

/-- Claim C10 (code bug): the claim describes the intended queued-dispatch
behaviour — N sequential `push_event` calls delivered to the native
push-event sink in submission order — and the dispatcher is built for it
(the mpsc queue does preserve per-sender FIFO order and the single
consumer drains it in arrival order). But the `APP` cell is
`thread_local!` (`src/plugin.rs`, lines 52-55), so the consumer thread
spawned in `CallbackDispatcherBackend::start` observes an uninitialized
cell forever: every delivery fails with the NotInitialized error and the
native sink receives nothing — zero deliveries, not N in order. (Even
with a process-shared cell, `raw_handle`'s `borrow_mut` inside
`dispatch`'s live borrow would panic before the sink is called.)
The first conjunct evaluates the consumer over any queue; the second over
the concrete two-message submission-order queue of the claim's scenario.
-/
theorem c10_consumer_never_delivers :
    (∀ {H E P : Type} (hid : H → Nat) (serializeEv : E → Except String Json)
      (serializeOut : P → Except String Json) (pushRc : Int)
      (queue : List (CallbackDispatch E P)),
      backendRun hid serializeEv serializeOut pushRc (consumerApp H) queue = []) ∧
    backendRun (fun h : Nat => h) serNull serNat 0 (consumerApp Nat)
        (([⟨"t1", 1, none⟩, ⟨"t2", 2, none⟩] : List (OutgoingMessage Nat)).map
          fun m => CallbackDispatcher.pushEvent (E := Nat) ⟨5⟩ m) = [] := by
  constructor
  · intro H E P hid serializeEv serializeOut pushRc queue
    induction queue with
    | nil => rfl
    | cons cd rest ih =>
      have h1 : backendDispatch hid serializeEv serializeOut pushRc (consumerApp H) cd =
          (.ok (.error "Plugin not initialized"), []) := rfl
      have h2 : janusLog "Plugin not initialized" = .ok () := rfl
      simp only [backendRun, h1, h2]
      simpa using ih
  · rfl

/-- Claim C8 (amended): typed errors never escape, and conversion to the
host convention happens exactly when the error text is free of interior
NUL bytes: `init`, `create_session` and `destroy_session` then return
status 1 (0 on success), `handle_message` returns a `JANUS_PLUGIN_ERROR`
result carrying the text (and passes impl successes through), and
`query_session` returns a null pointer. Panics, however, are not caught
anywhere: the identity getters (`get_name`, `get_description`,
`get_author`, `get_package`) call `.expect` and panic across the FFI
boundary on an interior NUL byte (see the counterexample), and every
fallible wrapper's error arm first calls `janus_log`, whose
`CString::new(...).expect` panics across the boundary when the error text
— e.g. an arbitrary plugin-supplied init or handler error string —
contains an interior NUL (shown here for `init`, `handle_message` and
`query_session`). -/
theorem c8_ffi_error_convention_amended {H Q P : Type} :
    (∀ (pluginInit : Except String Unit) (st st' : Option (App H)),
      initImpl pluginInit st = (.ok (), st') →
      initFfi pluginInit st = .ok (0, st')) ∧
    (∀ (pluginInit : Except String Unit) (st st' : Option (App H)) (e : String),
      initImpl pluginInit st = (.error e, st') → containsNul e = false →
      initFfi pluginInit st = .ok (1, st')) ∧
    (∀ (pluginInit : Except String Unit) (st st' : Option (App H)) (e : String),
      initImpl pluginInit st = (.error e, st') → containsNul e = true →
      initFfi pluginInit st = .panicked "Failed to cast error message") ∧
    (∀ (buildHandle : Nat → H) (mem : HostMem) (st st' : Option (App H)) (ptr : Nat)
      (e : String),
      createSessionImpl buildHandle mem st ptr = (.error e, st') →
      containsNul e = false →
      createSessionFfi buildHandle mem st ptr = .ok (1, st')) ∧
    (∀ (deserializeIn : Json → Except String Q)
      (handler : H → IncomingMessage Q → Except String (IncomingMessageResponse P))
      (serializeOut : P → Except String Json) (mem : HostMem) (st st' : Option (App H))
      (ptr : Nat) (transaction : Except String String) (payload : Json)
      (jsep : Option Json) (r : JanusPluginResult),
      handleMessageImpl deserializeIn handler serializeOut mem st ptr transaction
          payload jsep = (.ok r, st') →
      handleMessageFfi deserializeIn handler serializeOut mem st ptr transaction
          payload jsep = .ok (r, st')) ∧
    (∀ (deserializeIn : Json → Except String Q)
      (handler : H → IncomingMessage Q → Except String (IncomingMessageResponse P))
      (serializeOut : P → Except String Json) (mem : HostMem) (st st' : Option (App H))
      (ptr : Nat) (transaction : Except String String) (payload : Json)
      (jsep : Option Json) (e : String),
      handleMessageImpl deserializeIn handler serializeOut mem st ptr transaction
          payload jsep = (.error e, st') → containsNul e = false →
      handleMessageFfi deserializeIn handler serializeOut mem st ptr transaction
          payload jsep = .ok (⟨.error, e, none⟩, st')) ∧
    (∀ (deserializeIn : Json → Except String Q)
      (handler : H → IncomingMessage Q → Except String (IncomingMessageResponse P))
      (serializeOut : P → Except String Json) (mem : HostMem) (st st' : Option (App H))
      (ptr : Nat) (transaction : Except String String) (payload : Json)
      (jsep : Option Json) (e : String),
      handleMessageImpl deserializeIn handler serializeOut mem st ptr transaction
          payload jsep = (.error e, st') → containsNul e = true →
      handleMessageFfi deserializeIn handler serializeOut mem st ptr transaction
          payload jsep = .panicked "Failed to cast error message") ∧
    (∀ (mem : HostMem) (st st' : Option (App H)) (ptr : Nat) (e : String),
      destroySessionImpl mem st ptr = (.error e, st') → containsNul e = false →
      destroySessionFfi mem st ptr = .ok (1, st')) ∧
    (∀ (serializeH : H → Except String Json) (mem : HostMem) (st st' : Option (App H))
      (ptr : Nat) (e : String),
      querySessionImpl serializeH mem st ptr = (.error e, st') →
      containsNul e = false →
      querySessionFfi serializeH mem st ptr = .ok (none, st')) ∧
    (∀ (serializeH : H → Except String Json) (mem : HostMem) (st st' : Option (App H))
      (ptr : Nat) (e : String),
      querySessionImpl serializeH mem st ptr = (.error e, st') →
      containsNul e = true →
      querySessionFfi serializeH mem st ptr = .panicked "Failed to cast error message") ∧
    (∀ name : String, containsNul name = false → getName name = .ok name) ∧
    (∀ description : String, containsNul description = false →
      getDescription description = .ok description) ∧
    (∀ author : String, containsNul author = false → getAuthor author = .ok author) ∧
    (∀ package : String, containsNul package = false →
      getPackage package = .ok package) := by
  refine ⟨?_, ?_, ?_, ?_, ?_, ?_, ?_, ?_, ?_, ?_, ?_, ?_, ?_, ?_⟩
  · intro pluginInit st st' hr
    simp [initFfi, hr]
  · intro pluginInit st st' e hr hn
    simp [initFfi, hr, janusLog, cstringNew, hn]
  · intro pluginInit st st' e hr hn
    simp [initFfi, hr, janusLog, cstringNew, hn]
  · intro buildHandle mem st st' ptr e hr hn
    simp [createSessionFfi, hr, janusLog, cstringNew, hn]
  · intro deserializeIn handler serializeOut mem st st' ptr transaction payload jsep r hr
    simp [handleMessageFfi, hr]
  · intro deserializeIn handler serializeOut mem st st' ptr transaction payload jsep e
      hr hn
    simp [handleMessageFfi, hr, janusLog, cstringNew, hn]
  · intro deserializeIn handler serializeOut mem st st' ptr transaction payload jsep e
      hr hn
    simp [handleMessageFfi, hr, janusLog, cstringNew, hn]
  · intro mem st st' ptr e hr hn
    simp [destroySessionFfi, hr, janusLog, cstringNew, hn]
  · intro serializeH mem st st' ptr e hr hn
    simp [querySessionFfi, hr, janusLog, cstringNew, hn]
  · intro serializeH mem st st' ptr e hr hn
    simp [querySessionFfi, hr, janusLog, cstringNew, hn]
  · intro name hn
    simp [getName, cstringNew, hn]
  · intro description hn
    simp [getDescription, cstringNew, hn]
  · intro author hn
    simp [getAuthor, cstringNew, hn]
  · intro package hn
    simp [getPackage, cstringNew, hn]

/-- Witness for C8: `handle_message` on the uninitialized container
converts the NUL-free error text into a plugin-error result, and
`get_name` on a NUL-free name returns normally. -/
theorem c8_ffi_error_convention_witness :
    ((handleMessageImpl (H := Nat) (Q := Nat) (P := Nat) (fun _ => .ok 0)
        (fun _ _ => .ok .ack) (fun _ => .ok .null) ⟨fun _ => 0, fun _ => 0⟩ none 0
        (.ok "t") .null none = (.error "Plugin not initialized", none)) ∧
      containsNul "Plugin not initialized" = false) ∧
    (handleMessageFfi (H := Nat) (Q := Nat) (P := Nat) (fun _ => .ok 0)
        (fun _ _ => .ok .ack) (fun _ => .ok .null) ⟨fun _ => 0, fun _ => 0⟩ none 0
        (.ok "t") .null none = .ok (⟨.error, "Plugin not initialized", none⟩, none)) ∧
    (containsNul "Example" = false ∧ getName "Example" = .ok "Example") := by
  obtain ⟨h1, h2, h3, h4, h5, h6, h7, h8, h9, h10, h11, h12, h13, h14⟩ :=
    c8_ffi_error_convention_amended (H := Nat) (Q := Nat) (P := Nat)
  refine ⟨⟨rfl, by decide⟩, ?_, by decide, h11 "Example" (by decide)⟩
  exact h6 (fun _ => .ok 0) (fun _ _ => .ok .ack) (fun _ => .ok .null)
    ⟨fun _ => 0, fun _ => 0⟩ none none 0 (.ok "t") .null none "Plugin not initialized"
    rfl (by decide)

/-- Counterexample to C8 as stated: `get_name` with a plugin name holding
an interior NUL byte panics inside the `extern "C"` function — there is no
unwind guard, so the panic crosses the FFI boundary instead of being
converted to the host's error convention. -/
theorem c8_counterexample :
    getName (String.mk [Char.ofNat 110, Char.ofNat 0]) =
      .panicked "Failed to cast name" :=
  rfl

/-- Claim C6: `register` (add) on an already-present identity returns the
AlreadyRegistered error and leaves everything unchanged — registry
contents and (for the reference-counting variant A) the host reference
counts — in both registry variants. -/
theorem c6_register_already_registered {H : Type} (Hnew : Nat → H) (mem : HostMem)
    (regA : RegistryA H) (regB : RegistryB H) (ptr : Nat) (hB : H)
    (hpA : (regA.getByRawHandle mem ptr).isSome = true)
    (hpB : (regB.getByRawHandle mem ptr).isSome = true) :
    RegistryA.add Hnew mem regA ptr =
      ⟨.error "Handle already registered", mem, regA, 0, 0⟩ ∧
    RegistryB.add mem regB ptr hB = (.error "Handle already registered", regB) := by
  constructor
  · simp [RegistryA.add, hpA]
  · simp [RegistryB.add, hpB]

/-- Witness for C6 at a registry holding identity 3 for pointer 7. -/
theorem c6_register_already_registered_witness :
    ((RegistryA.getByRawHandle (H := Nat) ⟨[(3, 7, 0)]⟩ ⟨fun _ => 3, fun _ => 0⟩ 7).isSome
        = true ∧
      (RegistryB.getByRawHandle (H := Nat) ⟨[(3, 7, 0)]⟩ ⟨fun _ => 3, fun _ => 0⟩ 7).isSome
        = true) ∧
    (RegistryA.add (fun i => i) ⟨fun _ => 3, fun _ => 0⟩ ⟨[(3, 7, 0)]⟩ 7 =
        ⟨.error "Handle already registered", ⟨fun _ => 3, fun _ => 0⟩, ⟨[(3, 7, 0)]⟩, 0, 0⟩ ∧
      RegistryB.add ⟨fun _ => 3, fun _ => 0⟩ ⟨[(3, 7, 0)]⟩ 7 0 =
        (.error "Handle already registered", ⟨[(3, 7, 0)]⟩)) :=
  ⟨⟨by decide, by decide⟩,
    c6_register_already_registered (fun i => i) ⟨fun _ => 3, fun _ => 0⟩ ⟨[(3, 7, 0)]⟩
      ⟨[(3, 7, 0)]⟩ 7 0 (by decide) (by decide)⟩

/-- Claim C2: every command a `CallbackDispatcher` enqueues is exactly
the pair (session identity, callback variant) — the `CallbackDispatch`
type has no native-pointer field, so no native session reference crosses
the queue — and at delivery the consumer resolves the identity against
the registry at that moment: an unregistered identity fails with the
HandleNotFound error and performs no native call. On the registered path
the only pointer source is `raw_handle`'s registry lookup at delivery
time, and that call in fact panics re-borrowing the already-borrowed
`APP` cell before any native invocation — so in no case does a queued
command reach a native callback with a stale (or any) session
reference. -/
theorem c2_dispatch_resolves_at_delivery {H E P : Type} :
    (∀ (d : CallbackDispatcher) (cb : Callback E P),
      d.dispatch cb = ⟨d.handleId, cb⟩) ∧
    (∀ (hid : H → Nat) (serializeEv : E → Except String Json)
      (serializeOut : P → Except String Json) (pushRc : Int) (app : App H)
      (cd : CallbackDispatch E P),
      app.handleRegistry.getById cd.handleId = none →
      backendDispatch hid serializeEv serializeOut pushRc (some app) cd =
        (.ok (.error ("Handle " ++ toString cd.handleId ++ " not found")), [])) ∧
    (∀ (hid : H → Nat) (serializeEv : E → Except String Json)
      (serializeOut : P → Except String Json) (pushRc : Int) (app : App H)
      (cd : CallbackDispatch E P) (p : Nat) (h : H),
      app.handleRegistry.getById cd.handleId = some (p, h) →
      backendDispatch hid serializeEv serializeOut pushRc (some app) cd =
        (.panicked "already borrowed: BorrowMutError", [])) := by
  refine ⟨fun _ _ => rfl, ?_, ?_⟩
  · intro hid serializeEv serializeOut pushRc app cd hmiss
    simp [backendDispatch, hmiss]
  · intro hid serializeEv serializeOut pushRc app cd p h hreg
    obtain ⟨cid, cb⟩ := cd
    simp only at hreg
    cases cb <;> simp [backendDispatch, hreg, rawHandle]

/-- Witness for C2: identity 5 dispatched against an empty registry
(HandleNotFound, no native call) and against a registry holding
5 ↦ (pointer 9, handle 5) (re-borrow panic, no native call). -/
theorem c2_dispatch_resolves_at_delivery_witness :
    (RegistryB.getById (H := Nat) ⟨[]⟩ 5 = none ∧
      RegistryB.getById (H := Nat) ⟨[(5, 9, 5)]⟩ 5 = some (9, 5)) ∧
    (backendDispatch (fun h : Nat => h) serNull serNat 0 (some ⟨⟨[]⟩⟩)
        (⟨5, Callback.closePeerConnection⟩ : CallbackDispatch Nat Nat) =
      (.ok (.error ("Handle " ++ toString 5 ++ " not found")), []) ∧
      backendDispatch (fun h : Nat => h) serNull serNat 0 (some ⟨⟨[(5, 9, 5)]⟩⟩)
        (⟨5, Callback.closePeerConnection⟩ : CallbackDispatch Nat Nat) =
      (.panicked "already borrowed: BorrowMutError", [])) :=
  ⟨⟨rfl, rfl⟩,
    (c2_dispatch_resolves_at_delivery (H := Nat) (E := Nat) (P := Nat)).2.1
      (fun h => h) serNull serNat 0 ⟨⟨[]⟩⟩ ⟨5, Callback.closePeerConnection⟩ rfl,
    (c2_dispatch_resolves_at_delivery (H := Nat) (E := Nat) (P := Nat)).2.2
      (fun h => h) serNull serNat 0 ⟨⟨[(5, 9, 5)]⟩⟩ ⟨5, Callback.closePeerConnection⟩
      9 5 rfl⟩

/-- Claim C3: the lifecycle container is a two-state machine. `init` while
already initialized fails with the AlreadyInitialized error and leaves the
existing container untouched; `destroy` returns to the uninitialized
state; and every handle operation — create_session, handle_message, media
events, destroy_session, query_session and queued callback dispatch —
invoked while uninitialized fails with the NotInitialized error instead of
succeeding. -/
theorem c3_lifecycle_state_machine {H Q P E : Type} :
    (∀ (pluginInit : Except String Unit) (app : App H),
      initImpl pluginInit (some app) = (.error "Plugin already initialized", some app)) ∧
    (∀ st : Option (App H), destroy st = none) ∧
    (∀ (buildHandle : Nat → H) (mem : HostMem) (ptr : Nat),
      createSessionImpl buildHandle mem (none : Option (App H)) ptr =
        (.error "Plugin not initialized", none)) ∧
    (∀ (deserializeIn : Json → Except String Q)
      (handler : H → IncomingMessage Q → Except String (IncomingMessageResponse P))
      (serializeOut : P → Except String Json) (mem : HostMem) (ptr : Nat)
      (transaction : Except String String) (payload : Json) (jsep : Option Json),
      handleMessageImpl deserializeIn handler serializeOut mem none ptr transaction
        payload jsep = (.error "Plugin not initialized", none)) ∧
    (∀ (mem : HostMem) (ptr : Nat) (ev : MediaEvent),
      dispatchMediaEvent mem (none : Option (App H)) ptr ev =
        (.error "Plugin not initialized", none)) ∧
    (∀ (mem : HostMem) (ptr : Nat),
      destroySessionImpl mem (none : Option (App H)) ptr =
        (.error "Plugin not initialized", none)) ∧
    (∀ (serializeH : H → Except String Json) (mem : HostMem) (ptr : Nat),
      querySessionImpl serializeH mem (none : Option (App H)) ptr =
        (.error "Plugin not initialized", none)) ∧
    (∀ (hid : H → Nat) (serializeEv : E → Except String Json)
      (serializeOut : P → Except String Json) (pushRc : Int)
      (cd : CallbackDispatch E P),
      backendDispatch hid serializeEv serializeOut pushRc none cd =
        (.ok (.error "Plugin not initialized"), [])) :=
  ⟨fun _ _ => rfl, fun _ => rfl, fun _ _ _ => rfl, fun _ _ _ _ _ _ _ _ => rfl,
    fun _ _ _ => rfl, fun _ _ => rfl, fun _ _ _ => rfl, fun _ _ _ _ _ => rfl⟩

/-- Claim C4: against an initialized container whose registry has no entry
for a session (by pointer for the host-driven paths, by identity for the
queued dispatcher), message handling, media-event handling, session query
and queued callback dispatch all fail with the HandleNotFound error, emit
no native call, and leave the container — registry contents included —
exactly as it was. (The operations are total Lean functions, so no panic
is possible.) -/
theorem c4_handle_not_found {H Q P E : Type} (mem : HostMem) (app : App H)
    (ptr : Nat) (id : Nat)
    (hmiss : app.handleRegistry.getByRawHandle mem ptr = none)
    (hmissId : app.handleRegistry.getById id = none) :
    (∀ (deserializeIn : Json → Except String Q)
      (handler : H → IncomingMessage Q → Except String (IncomingMessageResponse P))
      (serializeOut : P → Except String Json) (transaction : Except String String)
      (payload : Json) (jsep : Option Json),
      handleMessageImpl deserializeIn handler serializeOut mem (some app) ptr transaction
        payload jsep = (.error "Handle not found", some app)) ∧
    (∀ ev : MediaEvent,
      dispatchMediaEvent mem (some app) ptr ev = (.error "Handle not found", some app)) ∧
    (∀ serializeH : H → Except String Json,
      querySessionImpl serializeH mem (some app) ptr =
        (.error "Handle not found", some app)) ∧
    (∀ (hid : H → Nat) (serializeEv : E → Except String Json)
      (serializeOut : P → Except String Json) (pushRc : Int) (cb : Callback E P),
      backendDispatch hid serializeEv serializeOut pushRc (some app) ⟨id, cb⟩ =
        (.ok (.error ("Handle " ++ toString id ++ " not found")), [])) := by
  refine ⟨?_, ?_, ?_, ?_⟩
  · intro deserializeIn handler serializeOut transaction payload jsep
    simp [handleMessageImpl, hmiss]
  · intro ev
    simp [dispatchMediaEvent, hmiss]
  · intro serializeH
    simp [querySessionImpl, hmiss]
  · intro hid serializeEv serializeOut pushRc cb
    simp [backendDispatch, hmissId]

/-- Witness for C4: an initialized container with an empty registry,
pointer 0 and identity 5. -/
theorem c4_handle_not_found_witness :
    ((RegistryB.getByRawHandle (H := Nat) ⟨[]⟩ ⟨fun _ => 0, fun _ => 0⟩ 0 = none) ∧
      (RegistryB.getById (H := Nat) ⟨[]⟩ 5 = none)) ∧
    ((∀ (deserializeIn : Json → Except String Nat)
      (handler : Nat → IncomingMessage Nat → Except String (IncomingMessageResponse Nat))
      (serializeOut : Nat → Except String Json) (transaction : Except String String)
      (payload : Json) (jsep : Option Json),
      handleMessageImpl deserializeIn handler serializeOut ⟨fun _ => 0, fun _ => 0⟩
        (some ⟨⟨[]⟩⟩) 0 transaction payload jsep = (.error "Handle not found", some ⟨⟨[]⟩⟩)) ∧
    (∀ ev : MediaEvent,
      dispatchMediaEvent ⟨fun _ => 0, fun _ => 0⟩ (some (⟨⟨[]⟩⟩ : App Nat)) 0 ev =
        (.error "Handle not found", some ⟨⟨[]⟩⟩)) ∧
    (∀ serializeH : Nat → Except String Json,
      querySessionImpl serializeH ⟨fun _ => 0, fun _ => 0⟩ (some ⟨⟨[]⟩⟩) 0 =
        (.error "Handle not found", some ⟨⟨[]⟩⟩)) ∧
    (∀ (hid : Nat → Nat) (serializeEv : Nat → Except String Json)
      (serializeOut : Nat → Except String Json) (pushRc : Int) (cb : Callback Nat Nat),
      backendDispatch hid serializeEv serializeOut pushRc (some ⟨⟨[]⟩⟩) ⟨5, cb⟩ =
        (.ok (.error ("Handle " ++ toString 5 ++ " not found")), []))) :=
  ⟨⟨rfl, rfl⟩,
    c4_handle_not_found ⟨fun _ => 0, fun _ => 0⟩ ⟨⟨[]⟩⟩ 0 5 rfl rfl⟩

/-- Claim C5 (amended): in the registry `plugin.rs` uses
(`src/plugin/handle_registry.rs`), `remove` succeeds, a subsequent
`get_by_id` for the removed identity returns empty, and a second `remove`
with the same native reference succeeds and changes nothing — this
variant never touches host reference counts at all. (The legacy variant A
additionally decrements the host reference count on the second call; see
the counterexample.) -/
theorem c5_unregister_twice_amended {H : Type} (mem : HostMem) (reg : RegistryB H)
    (ptr : Nat) (hnd : (keysOf reg.handles).Nodup) :
    (reg.remove mem ptr).1 = .ok () ∧
    ((reg.remove mem ptr).2).getById (fetchId mem ptr) = none ∧
    ((reg.remove mem ptr).2).remove mem ptr = (.ok (), (reg.remove mem ptr).2) := by
  refine ⟨rfl, ?_, ?_⟩
  · simpa [RegistryB.remove, RegistryB.getById] using
      @lookupEntry_erase_self (Nat × H) (fetchId mem ptr) reg.handles hnd
  · have h1 : lookupEntry (fetchId mem ptr) (eraseEntry (fetchId mem ptr) reg.handles)
        = none := lookupEntry_erase_self hnd
    simp [RegistryB.remove, eraseEntry_of_lookup_none h1]

/-- Witness for C5 at a registry holding identity 3 for pointer 7. -/
theorem c5_unregister_twice_witness :
    (keysOf ([(3, 7, 0)] : List (Nat × Nat × Nat))).Nodup ∧
    ((RegistryB.remove (H := Nat) ⟨fun _ => 3, fun _ => 0⟩ ⟨[(3, 7, 0)]⟩ 7).1 = .ok () ∧
      ((RegistryB.remove (H := Nat) ⟨fun _ => 3, fun _ => 0⟩ ⟨[(3, 7, 0)]⟩ 7).2).getById
          (fetchId ⟨fun _ => 3, fun _ => 0⟩ 7) = none ∧
      ((RegistryB.remove (H := Nat) ⟨fun _ => 3, fun _ => 0⟩ ⟨[(3, 7, 0)]⟩ 7).2).remove
          ⟨fun _ => 3, fun _ => 0⟩ 7 =
        (.ok (), (RegistryB.remove (H := Nat) ⟨fun _ => 3, fun _ => 0⟩ ⟨[(3, 7, 0)]⟩ 7).2)) :=
  ⟨by decide,
    c5_unregister_twice_amended ⟨fun _ => 3, fun _ => 0⟩ ⟨[(3, 7, 0)]⟩ 7 (by decide)⟩

/-- Counterexample to C5 as stated: in the legacy reference-counting
registry (`src/handle_registry.rs`), with one registered session (pointer
0, identity 0, host reference count 1 after the acquire), the second
`remove` still returns success but decrements the host reference count
from 0 to -1 — an observable state change, so the second call is not a
no-op with reference counts included. -/
theorem c5_counterexample :
    (RegistryA.remove (H := Nat) ⟨fun _ => 0, fun _ => 1⟩ ⟨[(0, 0, 0)]⟩ 0).mem.refCount 0
        = 0 ∧
    (RegistryA.remove
        (RegistryA.remove (H := Nat) ⟨fun _ => 0, fun _ => 1⟩ ⟨[(0, 0, 0)]⟩ 0).mem
        (RegistryA.remove (H := Nat) ⟨fun _ => 0, fun _ => 1⟩ ⟨[(0, 0, 0)]⟩ 0).reg
        0).result = .ok () ∧
    (RegistryA.remove
        (RegistryA.remove (H := Nat) ⟨fun _ => 0, fun _ => 1⟩ ⟨[(0, 0, 0)]⟩ 0).mem
        (RegistryA.remove (H := Nat) ⟨fun _ => 0, fun _ => 1⟩ ⟨[(0, 0, 0)]⟩ 0).reg
        0).mem.refCount 0 = -1 :=
  ⟨by decide, rfl, by decide⟩

end JanusApp
